import Mathlib

/-!
Shallow embedding of the RobotPuzzle serverless request handlers
(board-configurations.py, rounds.py, scores.py, user-profiles.py, index.py)
and proofs about their request/response behaviour.

Each DynamoDB table is modelled as a list of typed items with key-based
get/put/delete operations (get returns the first item with the key; put
replaces the item at the key or appends; delete removes every item at the
key). Timestamps are threaded in as explicit parameters standing for the
values the Python code obtains from the system clock. Request bodies are
modelled as already-parsed typed records with `Option` fields standing for
dictionary keys that may be absent.
-/

set_option maxHeartbeats 1000000
set_option linter.unusedVariables false

/-- Identity claims bag populated by the upstream authorizer
(`event.requestContext.authorizer.claims`). -/
structure Claims where
  sub : Option String
  email : Option String
deriving Repr, DecidableEq

/-- Boolean prefix test on character lists. -/
def listStartsWith : List Char → List Char → Bool
  | _, [] => true
  | [], _ :: _ => false
  | c :: cs, p :: ps => c == p && listStartsWith cs ps

/-- Boolean substring test on character lists. -/
def listContains (s pat : List Char) : Bool :=
  match s with
  | [] => listStartsWith [] pat
  | _ :: rest => listStartsWith s pat || listContains rest pat

/-- Python substring membership test `pat in s`. -/
def strContains (s pat : String) : Bool :=
  listContains s.data pat.data

/-- Python `s.startswith(pat)`. -/
def pyStartsWith (s pat : String) : Bool :=
  listStartsWith s.data pat.data

/-- Python `s.endswith(pat)`. -/
def pyEndsWith (s pat : String) : Bool :=
  listStartsWith s.data.reverse pat.data.reverse

/-- Accumulator loop for splitting a character list on a separator. -/
def splitOnCharAux (sep : Char) : List Char → List Char → List (List Char)
  | [], acc => [acc.reverse]
  | c :: cs, acc =>
      if c == sep then acc.reverse :: splitOnCharAux sep cs []
      else splitOnCharAux sep cs (c :: acc)

/-- Python `s.split(sep)` for a one-character separator (the handlers only
ever split on a slash). -/
def pySplit (s : String) (sep : Char) : List String :=
  (splitOnCharAux sep s.data []).map String.mk

/-- Characters remaining after stripping leading and trailing whitespace. -/
def trimChars (cs : List Char) : List Char :=
  ((cs.dropWhile Char.isWhitespace).reverse.dropWhile Char.isWhitespace).reverse

/-- Python `s.strip()`. -/
def pyStrip (s : String) : String :=
  String.mk (trimChars s.data)

/-- Numeric value of a non-empty all-digit character list. -/
def digitsToNat (cs : List Char) : Option Nat :=
  if cs ≠ [] ∧ cs.all Char.isDigit then
    some (cs.foldl (fun a c => a * 10 + (c.toNat - 48)) 0)
  else none

/-- Python `int(s)`: optional surrounding whitespace, optional sign,
decimal digits; `none` models the ValueError branch. -/
def pyInt (s : String) : Option Int :=
  match trimChars s.data with
  | '-' :: rest => (digitsToNat rest).map (fun n => -(n : Int))
  | '+' :: rest => (digitsToNat rest).map (fun n => (n : Int))
  | cs => (digitsToNat cs).map (fun n => (n : Int))

/-- Python `str.isalnum`: non-empty and every character alphanumeric. -/
def pyIsAlnum (s : String) : Bool :=
  !s.data.isEmpty && s.data.all Char.isAlphanum

/-- Python `username.replace('_', '').replace('-', '')`: remove all
underscores and hyphens. -/
def removeUnderscoreHyphen (s : String) : String :=
  String.mk (s.data.filter (fun c => !(c == '_' || c == '-')))

/-- Item of the scores table: one record per (roundId, userId). -/
structure ScoreItem where
  roundId : String
  userId : String
  moves : Int
  moveSequence : String
  completedAt : String
  attemptCount : Nat
  userEmail : Option String
deriving Repr, DecidableEq

/-- Item of the rounds table, keyed by roundId. Fields are optional where
the two divergent persisted schemas (rounds.py flat shape, index.py
puzzleStates shape) disagree. -/
structure RoundItem where
  roundId : String
  configId : Option String
  roundName : Option String
  puzzleStates : Option String
  initialRobotPositions : Option String
  targetPositions : Option String
  walls : Option String
  targets : Option String
  authorEmail : Option String
  authorId : Option String
  createdAt : String
deriving Repr, DecidableEq

/-- Item of the board-configurations table, keyed by (userId, configId). -/
structure ConfigItem where
  userId : String
  configId : String
  walls : List String
  targets : List String
  createdAt : String
  updatedAt : String
deriving Repr, DecidableEq

/-- The four-field view of a configuration returned by the GET routes. -/
structure ConfigView where
  walls : List String
  targets : List String
  createdAt : String
  updatedAt : String
deriving Repr, DecidableEq

/-- Item of the user-profiles table, keyed by userId. `extra` holds the
free-form fields the update route merges in verbatim. -/
structure ProfileItem where
  userId : String
  email : Option String
  username : Option String
  createdAt : String
  updatedAt : Option String
  extra : List (String × String)
deriving Repr, DecidableEq

/-- Typed rendering of the JSON response bodies produced by the handlers. -/
inductive RespBody where
  | empty
  | err (message : String)
  | msg (message : String)
  | scoreSubmitted (moves : Int) (personalBest : Bool) (attemptCount : Nat)
  | scoreNotImproved (currentBest : Int) (submitted : Int) (personalBest : Bool)
  | scoreList (items : List ScoreItem)
  | roundList (items : List RoundItem)
  | roundObj (item : RoundItem)
  | configCreated (configId : String)
  | configMap (items : List (String × ConfigView))
  | configObj (v : ConfigView)
  | profileObj (p : ProfileItem)
  | publicInfo (userId : String) (username : Option String) (email : Option String)
deriving Repr, DecidableEq

/-- HTTP-like response envelope: status code, the
Access-Control-Allow-Origin header value, and the body. -/
structure Response where
  statusCode : Nat
  allowOrigin : String
  body : RespBody
deriving Repr, DecidableEq

namespace Scores

/-- Origin header constant used by scores.py responses. -/
def origin : String := "https://robots.mlusby.dev"

/-- scores.py `success_response(data, status_code)`. -/
def success_response (data : RespBody) (status_code : Nat) : Response :=
  { statusCode := status_code, allowOrigin := origin, body := data }

/-- scores.py `error_response(status_code, message)`. -/
def error_response (status_code : Nat) (message : String) : Response :=
  { statusCode := status_code, allowOrigin := origin, body := .err message }

/-- scores.py `cors_response()`. -/
def cors_response : Response :=
  { statusCode := 200, allowOrigin := origin, body := .empty }

/-- DynamoDB `get_item(Key={roundId, userId})` on the scores table. -/
def getScore : List ScoreItem → String → String → Option ScoreItem
  | [], _, _ => none
  | s :: rest, rid, uid =>
      if s.roundId = rid ∧ s.userId = uid then some s else getScore rest rid uid

/-- DynamoDB `put_item` on the scores table: replace the item at the key,
or append when the key is fresh. -/
def putScore : List ScoreItem → ScoreItem → List ScoreItem
  | [], item => [item]
  | s :: rest, item =>
      if s.roundId = item.roundId ∧ s.userId = item.userId then item :: rest
      else s :: putScore rest item

/-- Parsed request body for score submission. -/
structure ScoresBody where
  roundId : Option String
  moves : Option Int
  moveSequence : Option String
deriving Repr, DecidableEq

/-- scores.py `submit_score(user_id, round_id, score_data, user_email)`.
The clock value `now` stands for `datetime.datetime.utcnow().isoformat()`. -/
def submit_score (table : List ScoreItem) (user_id round_id : String)
    (score_data : ScoresBody) (user_email : Option String) (now : String) :
    List ScoreItem × Response :=
  match score_data.moves with
  | none => (table, error_response 400 "moves field is required")
  | some moves =>
    match score_data.moveSequence with
    | none => (table, error_response 400 "moveSequence field is required")
    | some move_sequence =>
      match getScore table round_id user_id with
      | none =>
          let score_item : ScoreItem :=
            { roundId := round_id, userId := user_id, moves := moves,
              moveSequence := move_sequence, completedAt := now,
              attemptCount := 1, userEmail := user_email }
          (putScore table score_item,
           success_response (.scoreSubmitted moves true 1) 201)
      | some existing_score =>
          let attempt_count := existing_score.attemptCount + 1
          if existing_score.moves ≤ moves then
            (table,
             success_response
               (.scoreNotImproved existing_score.moves moves false) 200)
          else
            let score_item : ScoreItem :=
              { roundId := round_id, userId := user_id, moves := moves,
                moveSequence := move_sequence, completedAt := now,
                attemptCount := attempt_count, userEmail := user_email }
            (putScore table score_item,
             success_response (.scoreSubmitted moves true attempt_count) 201)

/-- Insertion step for the leaderboard sort (ascending by moves). -/
def insertByMoves (s : ScoreItem) : List ScoreItem → List ScoreItem
  | [] => [s]
  | t :: rest => if s.moves ≤ t.moves then s :: t :: rest else t :: insertByMoves s rest

/-- Ascending sort by move count, modelling the LeaderboardIndex query with
`ScanIndexForward=True`. -/
def sortByMoves : List ScoreItem → List ScoreItem
  | [] => []
  | s :: rest => insertByMoves s (sortByMoves rest)

/-- scores.py `get_leaderboard(round_id)`: all records for the round,
ordered ascending by moves. -/
def get_leaderboard (table : List ScoreItem) (round_id : String) : Response :=
  success_response
    (.scoreList (sortByMoves (table.filter (fun s => s.roundId == round_id)))) 200

/-- scores.py `get_user_scores(user_id)`: scan filtered by userId. -/
def get_user_scores (table : List ScoreItem) (user_id : String) : Response :=
  success_response (.scoreList (table.filter (fun s => s.userId == user_id))) 200

/-- Parsed event for the scores handler. `pathRoundId` is
`pathParameters.roundId`; `body` is the JSON-parsed request body (an absent
body parses to the empty object, i.e. all fields `none`). -/
structure Event where
  httpMethod : String
  path : String
  pathRoundId : Option String
  body : ScoresBody
  claims : Claims
deriving Repr, DecidableEq

/-- scores.py `lambda_handler(event, context)`. -/
def lambda_handler (table : List ScoreItem) (event : Event) (now : String) :
    List ScoreItem × Response :=
  if event.httpMethod = "OPTIONS" then (table, cors_response)
  else
    match event.claims.sub with
    | none => (table, error_response 401 "Unauthorized: No user ID found")
    | some user_id =>
      if event.httpMethod = "GET" then
        match event.pathRoundId with
        | some round_id => (table, get_leaderboard table round_id)
        | none => (table, get_user_scores table user_id)
      else if event.httpMethod = "POST" then
        match event.pathRoundId with
        | some round_id =>
            submit_score table user_id round_id event.body event.claims.email now
        | none =>
          match event.body.roundId with
          | some round_id =>
              submit_score table user_id round_id event.body event.claims.email now
          | none =>
              (table, error_response 400
                "roundId is required for score submission (in path or body)")
      else (table, error_response 405 "Method not allowed")

end Scores

namespace BoardConfigurations

/-- Origin header constant used by board-configurations.py responses. -/
def origin : String := "*"

/-- board-configurations.py `success_response(data, status_code)`. -/
def success_response (data : RespBody) (status_code : Nat) : Response :=
  { statusCode := status_code, allowOrigin := origin, body := data }

/-- board-configurations.py `error_response(status_code, message)`. -/
def error_response (status_code : Nat) (message : String) : Response :=
  { statusCode := status_code, allowOrigin := origin, body := .err message }

/-- board-configurations.py `cors_response()`. -/
def cors_response : Response :=
  { statusCode := 200, allowOrigin := origin, body := .empty }

/-- DynamoDB `get_item(Key={userId, configId})` on the configurations table. -/
def getConfig : List ConfigItem → String → String → Option ConfigItem
  | [], _, _ => none
  | c :: rest, uid, cid =>
      if c.userId = uid ∧ c.configId = cid then some c else getConfig rest uid cid

/-- DynamoDB `put_item` on the configurations table: replace the item at
the key, or append when the key is fresh. -/
def putConfig : List ConfigItem → ConfigItem → List ConfigItem
  | [], item => [item]
  | c :: rest, item =>
      if c.userId = item.userId ∧ c.configId = item.configId then item :: rest
      else c :: putConfig rest item

/-- DynamoDB `delete_item` on the configurations table. -/
def deleteConfig : List ConfigItem → String → String → List ConfigItem
  | [], _, _ => []
  | c :: rest, uid, cid =>
      if c.userId = uid ∧ c.configId = cid then deleteConfig rest uid cid
      else c :: deleteConfig rest uid cid

/-- DynamoDB `query(KeyConditionExpression=userId = :userId)` on the
configurations table. -/
def queryConfigs (table : List ConfigItem) (uid : String) : List ConfigItem :=
  table.filter (fun c => c.userId == uid)

/-- Parsed request body for configuration create/update. -/
structure ConfigBody where
  walls : Option (List String)
  targets : Option (List String)
deriving Repr, DecidableEq

/-- View of a stored configuration as returned by the GET routes. -/
def viewOf (item : ConfigItem) : ConfigView :=
  { walls := item.walls, targets := item.targets,
    createdAt := item.createdAt, updatedAt := item.updatedAt }

/-- board-configurations.py `get_configurations(user_id)`. -/
def get_configurations (table : List ConfigItem) (user_id : String) : Response :=
  success_response
    (.configMap ((queryConfigs table user_id).map (fun i => (i.configId, viewOf i)))) 200

/-- board-configurations.py `get_configuration(user_id, config_id)`. -/
def get_configuration (table : List ConfigItem) (user_id config_id : String) : Response :=
  match getConfig table user_id config_id with
  | none => error_response 404 "Configuration not found"
  | some item => success_response (.configObj (viewOf item)) 200

/-- board-configurations.py `create_configuration(user_id, data)`: assigns
the next configId by scanning the numeric ids the owner already has and
incrementing the maximum, falling back to "1" when none parse. The clock
value `now` stands for `datetime.utcnow().isoformat()`. -/
def create_configuration (table : List ConfigItem) (user_id : String)
    (data : ConfigBody) (now : String) : List ConfigItem × Response :=
  match data.walls, data.targets with
  | some walls, some targets =>
      let existing_ids : List Int :=
        (queryConfigs table user_id).filterMap (fun i => pyInt i.configId)
      let config_id : String :=
        match existing_ids.max? with
        | none => "1"
        | some m => toString (m + 1)
      let item : ConfigItem :=
        { userId := user_id, configId := config_id, walls := walls,
          targets := targets, createdAt := now, updatedAt := now }
      (putConfig table item, success_response (.configCreated config_id) 201)
  | _, _ => (table, error_response 400 "Missing walls or targets data")

/-- board-configurations.py `update_configuration(user_id, config_id, data)`:
404 when the caller does not own a record at the id, otherwise overwrite
walls, targets and updatedAt while keeping the original createdAt. -/
def update_configuration (table : List ConfigItem) (user_id config_id : String)
    (data : ConfigBody) (now : String) : List ConfigItem × Response :=
  match getConfig table user_id config_id with
  | none => (table, error_response 404 "Configuration not found")
  | some item =>
      match data.walls, data.targets with
      | some walls, some targets =>
          let newItem : ConfigItem :=
            { userId := user_id, configId := config_id, walls := walls,
              targets := targets, createdAt := item.createdAt, updatedAt := now }
          (putConfig table newItem,
           success_response (.msg "Configuration updated successfully") 200)
      | _, _ => (table, error_response 400 "Missing walls or targets data")

/-- board-configurations.py `delete_configuration(user_id, config_id)`. -/
def delete_configuration (table : List ConfigItem) (user_id config_id : String) :
    List ConfigItem × Response :=
  match getConfig table user_id config_id with
  | none => (table, error_response 404 "Configuration not found")
  | some _ =>
      (deleteConfig table user_id config_id,
       success_response (.msg "Configuration deleted successfully") 200)

/-- Parsed event for the configurations handler. `pathConfigId` models
`event.pathParameters.configId`; a `none` request body models an absent
body key (the KeyError path). -/
structure Event where
  httpMethod : String
  path : String
  pathConfigId : Option String
  body : Option ConfigBody
  claims : Claims
deriving Repr, DecidableEq

/-- board-configurations.py `lambda_handler(event, context)`. The subject
claim is read with a bare dictionary index, so a missing sub raises
KeyError which the handler maps to a 400 response (before the OPTIONS
branch is ever reached). -/
def lambda_handler (table : List ConfigItem) (event : Event) (now : String) :
    List ConfigItem × Response :=
  match event.claims.sub with
  | none => (table, error_response 400 "Missing required parameter: sub")
  | some user_id =>
    if event.httpMethod = "OPTIONS" then (table, cors_response)
    else if event.path = "/configurations" then
      if event.httpMethod = "GET" then (table, get_configurations table user_id)
      else if event.httpMethod = "POST" then
        match event.body with
        | none => (table, error_response 400 "Missing required parameter: body")
        | some data => create_configuration table user_id data now
      else (table, error_response 405 "Method not allowed")
    else if event.path.startsWith "/configurations/" then
      match event.pathConfigId with
      | none => (table, error_response 400 "Missing required parameter: configId")
      | some config_id =>
        if event.httpMethod = "GET" then
          (table, get_configuration table user_id config_id)
        else if event.httpMethod = "PUT" then
          match event.body with
          | none => (table, error_response 400 "Missing required parameter: body")
          | some data => update_configuration table user_id config_id data now
        else if event.httpMethod = "DELETE" then
          delete_configuration table user_id config_id
        else (table, error_response 405 "Method not allowed")
    else (table, error_response 405 "Method not allowed")

end BoardConfigurations

namespace UserProfiles

/-- Origin header constant used by user-profiles.py responses. -/
def origin : String := "*"

/-- user-profiles.py `success_response(data)`: always status 200. -/
def success_response (data : RespBody) : Response :=
  { statusCode := 200, allowOrigin := origin, body := data }

/-- user-profiles.py `error_response(status_code, message)`. -/
def error_response (status_code : Nat) (message : String) : Response :=
  { statusCode := status_code, allowOrigin := origin, body := .err message }

/-- user-profiles.py `cors_response()`. -/
def cors_response : Response :=
  { statusCode := 200, allowOrigin := origin, body := .empty }

/-- DynamoDB `get_item(Key={userId})` on the profiles table. -/
def getProfile : List ProfileItem → String → Option ProfileItem
  | [], _ => none
  | p :: rest, uid => if p.userId = uid then some p else getProfile rest uid

/-- DynamoDB `put_item` on the profiles table: replace the item at the key,
or append when the key is fresh. -/
def putProfile : List ProfileItem → ProfileItem → List ProfileItem
  | [], item => [item]
  | p :: rest, item =>
      if p.userId = item.userId then item :: rest else p :: putProfile rest item

/-- Parsed request body for a profile update. `username` mirrors
the username key of the body; `extra` holds every other key of the
body in order, each with a non-null value. -/
structure ProfileBody where
  username : Option String
  extra : List (String × String)
deriving Repr, DecidableEq

/-- Set a key in an association list, replacing the first occurrence or
appending. -/
def setExtra : List (String × String) → String × String → List (String × String)
  | [], kv => [kv]
  | (k, v) :: rest, kv => if k = kv.1 then kv :: rest else (k, v) :: setExtra rest kv

/-- The merge loop of `update_user_profile`: fields other than the
protected identity fields are written into the stored record verbatim. -/
def mergeExtra (stored fields : List (String × String)) : List (String × String) :=
  fields.foldl
    (fun acc kv =>
      if kv.1 = "userId" ∨ kv.1 = "email" ∨ kv.1 = "createdAt" ∨ kv.1 = "updatedAt" then acc
      else setExtra acc kv)
    stored

/-- Tail of user-profiles.py `update_user_profile` after username
validation: load or create the profile, set username when given, merge the
other fields, store, and answer 200 with the stored profile. -/
def applyProfileUpdate (table : List ProfileItem) (user_id : String)
    (user_email : Option String) (username : Option String)
    (extraFields : List (String × String)) (now : String) :
    List ProfileItem × Response :=
  let base : ProfileItem :=
    match getProfile table user_id with
    | some p => { p with updatedAt := some now }
    | none =>
        { userId := user_id, email := user_email, username := none,
          createdAt := now, updatedAt := some now, extra := [] }
  let withName : ProfileItem :=
    match username with
    | some u => { base with username := some u }
    | none => base
  let profile : ProfileItem := { withName with extra := mergeExtra withName.extra extraFields }
  (putProfile table profile, success_response (.profileObj profile))

/-- user-profiles.py `update_user_profile(user_id, user_email,
profile_data)`: when a username is supplied it is stripped and must have
length 3 to 20 and pass the alphanumeric check after removing underscores
and hyphens, else the request is rejected with 400 and no write happens. -/
def update_user_profile (table : List ProfileItem) (user_id : String)
    (user_email : Option String) (profile_data : ProfileBody) (now : String) :
    List ProfileItem × Response :=
  match profile_data.username with
  | none => applyProfileUpdate table user_id user_email none profile_data.extra now
  | some username0 =>
      let username := pyStrip username0
      if username.length < 3 then
        (table, error_response 400 "Username must be at least 3 characters long")
      else if username.length > 20 then
        (table, error_response 400 "Username must be no more than 20 characters long")
      else if !(pyIsAlnum (removeUnderscoreHyphen username)) then
        (table, error_response 400
          "Username can only contain letters, numbers, hyphens, and underscores")
      else applyProfileUpdate table user_id user_email (some username) profile_data.extra now

/-- user-profiles.py `get_user_profile(user_id, user_email)`: the stored
profile, or a transient default when none exists. -/
def get_user_profile (table : List ProfileItem) (user_id : String)
    (user_email : Option String) (now : String) : Response :=
  match getProfile table user_id with
  | some p => success_response (.profileObj p)
  | none =>
      success_response (.profileObj
        { userId := user_id, email := user_email, username := none,
          createdAt := now, updatedAt := none, extra := [] })

/-- user-profiles.py `get_username_by_user_id(target_user_id)`. -/
def get_username_by_user_id (table : List ProfileItem) (target_user_id : String) : Response :=
  match getProfile table target_user_id with
  | some p => success_response (.publicInfo target_user_id p.username p.email)
  | none => success_response (.publicInfo target_user_id none none)

/-- Parsed event for the profiles handler. -/
structure Event where
  httpMethod : String
  path : String
  body : ProfileBody
  claims : Claims
deriving Repr, DecidableEq

/-- user-profiles.py `lambda_handler(event, context)`. -/
def lambda_handler (table : List ProfileItem) (event : Event) (now : String) :
    List ProfileItem × Response :=
  if event.httpMethod = "OPTIONS" then (table, cors_response)
  else
    match event.claims.sub with
    | none => (table, error_response 401 "Unauthorized: No user ID found")
    | some user_id =>
      if event.httpMethod = "GET" then
        if strContains event.path "/user/username/" then
          (table, get_username_by_user_id table ((pySplit event.path '/').getLastD ""))
        else (table, get_user_profile table user_id event.claims.email now)
      else if event.httpMethod = "PUT" then
        update_user_profile table user_id event.claims.email event.body now
      else (table, error_response 405 "Method not allowed")

end UserProfiles

namespace Rounds

/-- Origin header constant used by rounds.py responses. -/
def origin : String := "http://robot-puzzle-game-prod-website.s3-website-us-east-1.amazonaws.com"

/-- rounds.py `create_response(status_code, body)`. -/
def create_response (status_code : Nat) (body : RespBody) : Response :=
  { statusCode := status_code, allowOrigin := origin, body := body }

/-- DynamoDB `get_item(Key={roundId})` on the rounds table. -/
def getRound : List RoundItem → String → Option RoundItem
  | [], _ => none
  | r :: rest, rid => if r.roundId = rid then some r else getRound rest rid

/-- DynamoDB `put_item` on the rounds table: replace the item at the key,
or append when the key is fresh. -/
def putRound : List RoundItem → RoundItem → List RoundItem
  | [], item => [item]
  | r :: rest, item =>
      if r.roundId = item.roundId then item :: rest else r :: putRound rest item

/-- DynamoDB `delete_item(Key={roundId})` on the rounds table. -/
def deleteRound : List RoundItem → String → List RoundItem
  | [], _ => []
  | r :: rest, rid =>
      if r.roundId = rid then deleteRound rest rid else r :: deleteRound rest rid

/-- Parsed request body for round creation (rounds.py flat legacy shape
plus the fields index.py reads). Payload values are kept opaque. -/
structure RoundsBody where
  configId : Option String
  initialRobotPositions : Option String
  targetPositions : Option String
  walls : Option String
  targets : Option String
  roundName : Option String
  puzzleStates : Option String
deriving Repr, DecidableEq

/-- rounds.py `handle_get_solved_rounds`: a full unfiltered scan of the
rounds table returned with status 200. -/
def handle_get_solved_rounds (table : List RoundItem)
    (user_id user_email : Option String) : Response :=
  create_response 200 (.roundList table)

/-- rounds.py `handle_get_baseline_rounds`: a full unfiltered scan of the
rounds table returned with status 200. -/
def handle_get_baseline_rounds (table : List RoundItem)
    (user_id user_email : Option String) : Response :=
  create_response 200 (.roundList table)

/-- rounds.py `handle_get_user_submitted_rounds`: a full unfiltered scan of
the rounds table returned with status 200. -/
def handle_get_user_submitted_rounds (table : List RoundItem)
    (user_id user_email : Option String) : Response :=
  create_response 200 (.roundList table)

/-- rounds.py `handle_get_rounds`: a full unfiltered scan of the rounds
table returned with status 200. -/
def handle_get_rounds (table : List RoundItem)
    (user_id user_email : Option String) : Response :=
  create_response 200 (.roundList table)

/-- rounds.py `handle_get_specific_round`: look up the last path segment as
the roundId. -/
def handle_get_specific_round (table : List RoundItem) (path : String)
    (user_id user_email : Option String) : Response :=
  let round_id := (pySplit path '/').getLastD ""
  match getRound table round_id with
  | none => create_response 404 (.err "Round not found")
  | some round_item => create_response 200 (.roundObj round_item)

/-- rounds.py `handle_get_round_config`: look up path segment 3 as the
roundId. -/
def handle_get_round_config (table : List RoundItem) (path : String) : Response :=
  let path_parts := pySplit path '/'
  if path_parts.length < 4 then create_response 400 (.err "Round ID is required")
  else
    match getRound table (path_parts.getD 3 "") with
    | none => create_response 404 (.err "Round not found")
    | some round_item => create_response 200 (.roundObj round_item)

/-- rounds.py `handle_delete_round`: only the author may delete, where the
authorship check compares the caller email claim to the stored authorEmail. -/
def handle_delete_round (table : List RoundItem) (path : String)
    (user_id user_email : Option String) : List RoundItem × Response :=
  let path_parts := pySplit path '/'
  if path_parts.length < 3 then
    (table, create_response 400 (.err "Round ID is required"))
  else
    let round_id := path_parts.getD 2 ""
    match getRound table round_id with
    | none => (table, create_response 404 (.err "Round not found"))
    | some round_item =>
      if round_item.authorEmail ≠ user_email then
        (table, create_response 403 (.err "You can only delete your own rounds"))
      else
        (deleteRound table round_id,
         create_response 200 (.msg "Round deleted successfully"))

/-- rounds.py `handle_create_round`: requires a body with the flat legacy
fields, folds a path-supplied configId into the body when the path carries
one, and stores the flat-schema record. `nowMs` and `nowIso` stand for the
two clock readings the code takes. -/
def handle_create_round (table : List RoundItem) (path : String)
    (rawBody : Option RoundsBody) (user_id user_email : Option String)
    (nowMs : Nat) (nowIso : String) : List RoundItem × Response :=
  match rawBody with
  | none => (table, create_response 400 (.err "Request body is required"))
  | some body0 =>
    let withCfg : Option RoundsBody :=
      if strContains path "/config/" then
        match (pySplit path '/').get? 3 with
        | some cid => some { body0 with configId := some cid }
        | none => none
      else some body0
    match withCfg with
    | none => (table, create_response 500 (.err "Failed to create round"))
    | some body =>
      match body.initialRobotPositions, body.targetPositions with
      | none, none =>
          (table, create_response 400
            (.err "Missing required fields: initialRobotPositions, targetPositions"))
      | none, some _ =>
          (table, create_response 400 (.err "Missing required fields: initialRobotPositions"))
      | some _, none =>
          (table, create_response 400 (.err "Missing required fields: targetPositions"))
      | some irp, some tp =>
          let round_id := "round_" ++ toString nowMs
          let round_item : RoundItem :=
            { roundId := round_id, configId := some (body.configId.getD ""),
              roundName := none, puzzleStates := none,
              initialRobotPositions := some irp, targetPositions := some tp,
              walls := body.walls, targets := body.targets,
              authorEmail := user_email, authorId := user_id, createdAt := nowIso }
          (putRound table round_item, create_response 201 (.roundObj round_item))

/-- rounds.py `handle_create_round_with_config_id`: like create but the
configId always comes from path segment 3. -/
def handle_create_round_with_config_id (table : List RoundItem) (path : String)
    (rawBody : Option RoundsBody) (user_id user_email : Option String)
    (nowMs : Nat) (nowIso : String) : List RoundItem × Response :=
  match (pySplit path '/').get? 3 with
  | none => (table, create_response 500 (.err "Failed to create round"))
  | some config_id =>
    match rawBody with
    | none => (table, create_response 400 (.err "Request body is required"))
    | some body =>
      match body.initialRobotPositions, body.targetPositions with
      | none, none =>
          (table, create_response 400
            (.err "Missing required fields: initialRobotPositions, targetPositions"))
      | none, some _ =>
          (table, create_response 400 (.err "Missing required fields: initialRobotPositions"))
      | some _, none =>
          (table, create_response 400 (.err "Missing required fields: targetPositions"))
      | some irp, some tp =>
          let round_id := "round_" ++ toString nowMs
          let round_item : RoundItem :=
            { roundId := round_id, configId := some config_id,
              roundName := none, puzzleStates := none,
              initialRobotPositions := some irp, targetPositions := some tp,
              walls := body.walls, targets := body.targets,
              authorEmail := user_email, authorId := user_id, createdAt := nowIso }
          (putRound table round_item, create_response 201 (.roundObj round_item))

/-- Parsed event for the rounds handler. -/
structure Event where
  httpMethod : String
  path : String
  body : Option RoundsBody
  claims : Claims
deriving Repr, DecidableEq

/-- rounds.py `lambda_handler(event, context)`. The handler extracts the
claims but never rejects a missing subject id, and it has no OPTIONS
branch, so OPTIONS requests fall through to the 405 arm. -/
def lambda_handler (table : List RoundItem) (event : Event)
    (nowMs : Nat) (nowIso : String) : List RoundItem × Response :=
  let path := event.path
  let user_id := event.claims.sub
  let user_email := event.claims.email
  if event.httpMethod = "GET" then
    if strContains path "/config/" then
      (table, handle_get_round_config table path)
    else if pyEndsWith path "/solved" then
      (table, handle_get_solved_rounds table user_id user_email)
    else if pyEndsWith path "/baseline" then
      (table, handle_get_baseline_rounds table user_id user_email)
    else if pyEndsWith path "/user-submitted" then
      (table, handle_get_user_submitted_rounds table user_id user_email)
    else if pyEndsWith path "/user-completed" then
      (table, handle_get_user_submitted_rounds table user_id user_email)
    else if pyStartsWith path "/rounds/" && decide (2 < (pySplit path '/').length)
        && !pyEndsWith path "/config" && !pyEndsWith path "/solved"
        && !pyEndsWith path "/baseline" && !pyEndsWith path "/user-submitted"
        && !pyEndsWith path "/user-completed" then
      (table, handle_get_specific_round table path user_id user_email)
    else (table, handle_get_rounds table user_id user_email)
  else if event.httpMethod = "POST" then
    if strContains path "/config/" then
      handle_create_round_with_config_id table path event.body user_id user_email nowMs nowIso
    else handle_create_round table path event.body user_id user_email nowMs nowIso
  else if event.httpMethod = "DELETE" then
    handle_delete_round table path user_id user_email
  else (table, create_response 405 (.err "Method not allowed"))

end Rounds

namespace IndexFn

/-- index.py `create_response(status_code, body)` (same header set as
rounds.py). -/
def create_response (status_code : Nat) (body : RespBody) : Response :=
  { statusCode := status_code, allowOrigin := Rounds.origin, body := body }

/-- index.py `handle_delete_round`: identical authorship rule to rounds.py,
comparing the caller email claim to the stored authorEmail. -/
def handle_delete_round (table : List RoundItem) (path : String)
    (user_id user_email : Option String) : List RoundItem × Response :=
  let path_parts := pySplit path '/'
  if path_parts.length < 3 then
    (table, create_response 400 (.err "Round ID is required"))
  else
    let round_id := path_parts.getD 2 ""
    match Rounds.getRound table round_id with
    | none => (table, create_response 404 (.err "Round not found"))
    | some round_item =>
      if round_item.authorEmail ≠ user_email then
        (table, create_response 403 (.err "You can only delete your own rounds"))
      else
        (Rounds.deleteRound table round_id,
         create_response 200 (.msg "Round deleted successfully"))

end IndexFn

/-- Reading back the key just written by `putScore` yields the new item. -/
theorem getScore_putScore_self (table : List ScoreItem) (item : ScoreItem) :
    Scores.getScore (Scores.putScore table item) item.roundId item.userId = some item := by
  induction table with
  | nil => simp [Scores.putScore, Scores.getScore]
  | cons s rest ih =>
      by_cases h : s.roundId = item.roundId ∧ s.userId = item.userId
      · simp [Scores.putScore, Scores.getScore, h]
      · simp [Scores.putScore, Scores.getScore, h, ih]

/-- C1: a score submission carrying `moves` and `moveSequence` for a
resolved roundId stores a fresh record with attemptCount 1 and answers 201
with personalBest true when no record exists for (roundId, userId); when a
record exists and the submitted moves are strictly fewer, the stored record
is replaced entirely (new moves, moveSequence, completedAt) with
attemptCount incremented, and the 201 response carries personalBest true
and the new attemptCount. -/
theorem C1_submit_score_insert_and_improve
    (table : List ScoreItem) (user_id round_id : String)
    (score_data : Scores.ScoresBody) (user_email : Option String) (now : String)
    (m : Int) (sq : String)
    (hm : score_data.moves = some m) (hs : score_data.moveSequence = some sq) :
    (Scores.getScore table round_id user_id = none →
      (Scores.submit_score table user_id round_id score_data user_email now).2.statusCode = 201 ∧
      (Scores.submit_score table user_id round_id score_data user_email now).2.body =
        .scoreSubmitted m true 1 ∧
      Scores.getScore
        (Scores.submit_score table user_id round_id score_data user_email now).1
        round_id user_id =
        some { roundId := round_id, userId := user_id, moves := m, moveSequence := sq,
               completedAt := now, attemptCount := 1, userEmail := user_email }) ∧
    (∀ prev, Scores.getScore table round_id user_id = some prev → m < prev.moves →
      (Scores.submit_score table user_id round_id score_data user_email now).2.statusCode = 201 ∧
      (Scores.submit_score table user_id round_id score_data user_email now).2.body =
        .scoreSubmitted m true (prev.attemptCount + 1) ∧
      Scores.getScore
        (Scores.submit_score table user_id round_id score_data user_email now).1
        round_id user_id =
        some { roundId := round_id, userId := user_id, moves := m, moveSequence := sq,
               completedAt := now, attemptCount := prev.attemptCount + 1,
               userEmail := user_email }) := by
  constructor
  · intro hnone
    simp only [Scores.submit_score, hm, hs, hnone, Scores.success_response]
    refine ⟨trivial, trivial, ?_⟩
    exact getScore_putScore_self table _
  · intro prev hp hlt
    simp only [Scores.submit_score, hm, hs, hp]
    rw [if_neg (not_le.mpr hlt)]
    refine ⟨rfl, rfl, ?_⟩
    exact getScore_putScore_self table _

/-- Witness for C1: a stored best of 20 moves is beaten by a 15-move
submission, giving a 201 response with personalBest true and attemptCount 2
and a stored record with moves 15. -/
theorem C1_submit_score_insert_and_improve_witness :
    (Scores.submit_score [⟨"r1", "u1", 20, "s0", "t0", 1, some "e"⟩] "u1" "r1"
        ⟨none, some 15, some "sq"⟩ (some "e") "t1").2.statusCode = 201 ∧
    (Scores.submit_score [⟨"r1", "u1", 20, "s0", "t0", 1, some "e"⟩] "u1" "r1"
        ⟨none, some 15, some "sq"⟩ (some "e") "t1").2.body =
      .scoreSubmitted 15 true (1 + 1) ∧
    Scores.getScore
      (Scores.submit_score [⟨"r1", "u1", 20, "s0", "t0", 1, some "e"⟩] "u1" "r1"
        ⟨none, some 15, some "sq"⟩ (some "e") "t1").1 "r1" "u1" =
      some { roundId := "r1", userId := "u1", moves := 15, moveSequence := "sq",
             completedAt := "t1", attemptCount := 1 + 1, userEmail := some "e" } :=
  (C1_submit_score_insert_and_improve
      [⟨"r1", "u1", 20, "s0", "t0", 1, some "e"⟩] "u1" "r1"
      ⟨none, some 15, some "sq"⟩ (some "e") "t1" 15 "sq" rfl rfl).2
    ⟨"r1", "u1", 20, "s0", "t0", 1, some "e"⟩ (by decide) (by decide)

/-- C2: when a record already exists for (roundId, userId) and the
submitted moves are not strictly fewer than the stored best, the table is
returned unchanged and the response is a 200 success carrying the existing
best, the submitted value, and personalBest false. -/
theorem C2_submit_score_not_improved
    (table : List ScoreItem) (user_id round_id : String)
    (score_data : Scores.ScoresBody) (user_email : Option String) (now : String)
    (m : Int) (sq : String) (prev : ScoreItem)
    (hm : score_data.moves = some m) (hs : score_data.moveSequence = some sq)
    (hp : Scores.getScore table round_id user_id = some prev)
    (hge : prev.moves ≤ m) :
    Scores.submit_score table user_id round_id score_data user_email now =
      (table, Scores.success_response (.scoreNotImproved prev.moves m false) 200) := by
  simp only [Scores.submit_score, hm, hs, hp]
  rw [if_pos hge]

/-- Witness for C2: submitting 25 moves against a stored best of 15 leaves
the table unchanged and answers with personalBest false. -/
theorem C2_submit_score_not_improved_witness :
    Scores.submit_score [⟨"r1", "u1", 15, "s0", "t0", 2, some "e"⟩] "u1" "r1"
        ⟨none, some 25, some "sq"⟩ (some "e") "t1" =
      ([⟨"r1", "u1", 15, "s0", "t0", 2, some "e"⟩],
       Scores.success_response (.scoreNotImproved 15 25 false) 200) :=
  C2_submit_score_not_improved [⟨"r1", "u1", 15, "s0", "t0", 2, some "e"⟩]
    "u1" "r1" ⟨none, some 25, some "sq"⟩ (some "e") "t1" 25 "sq"
    ⟨"r1", "u1", 15, "s0", "t0", 2, some "e"⟩ rfl rfl (by decide) (by decide)

/-- Reading back the key just written by `putConfig` yields the new item. -/
theorem getConfig_putConfig_self (table : List ConfigItem) (item : ConfigItem) :
    BoardConfigurations.getConfig (BoardConfigurations.putConfig table item)
      item.userId item.configId = some item := by
  induction table with
  | nil => simp [BoardConfigurations.putConfig, BoardConfigurations.getConfig]
  | cons c rest ih =>
      by_cases h : c.userId = item.userId ∧ c.configId = item.configId
      · simp [BoardConfigurations.putConfig, BoardConfigurations.getConfig, h]
      · simp [BoardConfigurations.putConfig, BoardConfigurations.getConfig, h, ih]

/-- Writing a fresh key with `putConfig` appends the item at the end. -/
theorem putConfig_fresh (table : List ConfigItem) (item : ConfigItem)
    (h : BoardConfigurations.getConfig table item.userId item.configId = none) :
    BoardConfigurations.putConfig table item = table ++ [item] := by
  induction table with
  | nil => simp [BoardConfigurations.putConfig]
  | cons c rest ih =>
      by_cases hc : c.userId = item.userId ∧ c.configId = item.configId
      · simp [BoardConfigurations.getConfig, hc] at h
      · simp only [BoardConfigurations.getConfig, hc, if_false, if_neg hc] at h ⊢
        simp [BoardConfigurations.putConfig, hc, ih h]

/-- An owner with no records in the query result has no record at any key. -/
theorem getConfig_of_queryConfigs_nil (table : List ConfigItem) (uid cid : String)
    (h : BoardConfigurations.queryConfigs table uid = []) :
    BoardConfigurations.getConfig table uid cid = none := by
  induction table with
  | nil => rfl
  | cons c rest ih =>
      simp only [BoardConfigurations.queryConfigs, List.filter_cons] at h
      by_cases hc : c.userId = uid
      · simp [hc] at h
      · have hrest : BoardConfigurations.queryConfigs rest uid = [] := by
          simpa [BoardConfigurations.queryConfigs, hc] using h
        simp [BoardConfigurations.getConfig, hc, ih hrest]

/-- C4: a configuration create with walls and targets present assigns the
configId as one plus the maximum numeric id the owner already has
(rendered as a string), assigns "1" when no numeric id exists, and in
particular the first create for an owner with no stored configurations
yields "1" and the immediately following create yields "2". -/
theorem C4_create_configuration_id_assignment
    (table : List ConfigItem) (user_id : String)
    (data data2 : BoardConfigurations.ConfigBody) (now now2 : String)
    (w t w2 t2 : List String)
    (hw : data.walls = some w) (ht : data.targets = some t)
    (hw2 : data2.walls = some w2) (ht2 : data2.targets = some t2) :
    ((BoardConfigurations.queryConfigs table user_id).filterMap
        (fun i => pyInt i.configId) = [] →
      (BoardConfigurations.create_configuration table user_id data now).2 =
        BoardConfigurations.success_response (.configCreated "1") 201) ∧
    (∀ m : Int,
      ((BoardConfigurations.queryConfigs table user_id).filterMap
          (fun i => pyInt i.configId)).max? = some m →
      (BoardConfigurations.create_configuration table user_id data now).2 =
        BoardConfigurations.success_response (.configCreated (toString (m + 1))) 201) ∧
    (BoardConfigurations.queryConfigs table user_id = [] →
      (BoardConfigurations.create_configuration table user_id data now).2 =
        BoardConfigurations.success_response (.configCreated "1") 201 ∧
      (BoardConfigurations.create_configuration
          (BoardConfigurations.create_configuration table user_id data now).1
          user_id data2 now2).2 =
        BoardConfigurations.success_response (.configCreated "2") 201) := by
  refine ⟨?_, ?_, ?_⟩
  · intro hids
    simp [BoardConfigurations.create_configuration, hw, ht, hids]
  · intro m hm
    simp [BoardConfigurations.create_configuration, hw, ht, hm]
  · intro hq
    have hids : (BoardConfigurations.queryConfigs table user_id).filterMap
        (fun i => pyInt i.configId) = [] := by simp [hq]
    refine ⟨by simp [BoardConfigurations.create_configuration, hw, ht, hids], ?_⟩
    have htab1 : (BoardConfigurations.create_configuration table user_id data now).1 =
        table ++ [{ userId := user_id, configId := "1", walls := w, targets := t,
                    createdAt := now, updatedAt := now }] := by
      simp only [BoardConfigurations.create_configuration, hw, ht, hids]
      exact putConfig_fresh table _ (getConfig_of_queryConfigs_nil table user_id "1" hq)
    rw [htab1]
    have hq1 : BoardConfigurations.queryConfigs
        (table ++ [{ userId := user_id, configId := "1", walls := w, targets := t,
                     createdAt := now, updatedAt := now }]) user_id =
        [{ userId := user_id, configId := "1", walls := w, targets := t,
           createdAt := now, updatedAt := now }] := by
      simp only [BoardConfigurations.queryConfigs, List.filter_append]
      rw [show (BoardConfigurations.queryConfigs table user_id) = table.filter
            (fun c => c.userId == user_id) from rfl] at hq
      rw [hq]
      simp
    have hone : pyInt "1" = some 1 := by decide
    have htwo : toString ((1 : Int) + 1) = "2" := by decide
    have htwo2 : toString ((2 : Int)) = "2" := by decide
    simp [BoardConfigurations.create_configuration, hw2, ht2, hq1, hone, htwo, htwo2,
      List.max?]

/-- Witness for C4: on an empty table, the first create is assigned
configId "1" and the second configId "2". -/
theorem C4_create_configuration_id_assignment_witness :
    (BoardConfigurations.create_configuration [] "owner"
        ⟨some ["1,1,top"], some ["2,2"]⟩ "t0").2 =
      BoardConfigurations.success_response (.configCreated "1") 201 ∧
    (BoardConfigurations.create_configuration
        (BoardConfigurations.create_configuration [] "owner"
          ⟨some ["1,1,top"], some ["2,2"]⟩ "t0").1 "owner"
        ⟨some ["3,3,left"], some ["4,4"]⟩ "t1").2 =
      BoardConfigurations.success_response (.configCreated "2") 201 :=
  (C4_create_configuration_id_assignment [] "owner"
      ⟨some ["1,1,top"], some ["2,2"]⟩ ⟨some ["3,3,left"], some ["4,4"]⟩
      "t0" "t1" ["1,1,top"] ["2,2"] ["3,3,left"] ["4,4"]
      rfl rfl rfl rfl).2.2 rfl

/-- C9: a configuration update against a key the caller does not own
answers 404 and leaves the table unchanged; when the record exists and
walls and targets are present, the stored record keeps its original
createdAt while walls, targets and updatedAt are replaced, and the
response is 200. -/
theorem C9_update_configuration_preserves_createdAt
    (table : List ConfigItem) (user_id config_id : String)
    (data : BoardConfigurations.ConfigBody) (now : String) :
    (BoardConfigurations.getConfig table user_id config_id = none →
      BoardConfigurations.update_configuration table user_id config_id data now =
        (table, BoardConfigurations.error_response 404 "Configuration not found")) ∧
    (∀ item w t, BoardConfigurations.getConfig table user_id config_id = some item →
      data.walls = some w → data.targets = some t →
      (BoardConfigurations.update_configuration table user_id config_id data now).2.statusCode
        = 200 ∧
      BoardConfigurations.getConfig
        (BoardConfigurations.update_configuration table user_id config_id data now).1
        user_id config_id =
        some { userId := user_id, configId := config_id, walls := w, targets := t,
               createdAt := item.createdAt, updatedAt := now }) := by
  constructor
  · intro hnone
    simp [BoardConfigurations.update_configuration, hnone]
  · intro item w t hitem hw ht
    simp only [BoardConfigurations.update_configuration, hitem, hw, ht]
    refine ⟨rfl, ?_⟩
    exact getConfig_putConfig_self table _

/-- Witness for C9: updating an existing configuration keeps its original
createdAt "t0" while storing the new walls, targets and updatedAt "t5". -/
theorem C9_update_configuration_preserves_createdAt_witness :
    (BoardConfigurations.update_configuration
        [⟨"owner", "1", ["a"], ["b"], "t0", "t0"⟩] "owner" "1"
        ⟨some ["c"], some ["d"]⟩ "t5").2.statusCode = 200 ∧
    BoardConfigurations.getConfig
      (BoardConfigurations.update_configuration
        [⟨"owner", "1", ["a"], ["b"], "t0", "t0"⟩] "owner" "1"
        ⟨some ["c"], some ["d"]⟩ "t5").1 "owner" "1" =
      some { userId := "owner", configId := "1", walls := ["c"], targets := ["d"],
             createdAt := "t0", updatedAt := "t5" } :=
  (C9_update_configuration_preserves_createdAt
      [⟨"owner", "1", ["a"], ["b"], "t0", "t0"⟩] "owner" "1"
      ⟨some ["c"], some ["d"]⟩ "t5").2
    ⟨"owner", "1", ["a"], ["b"], "t0", "t0"⟩ ["c"] ["d"] (by decide) rfl rfl

/-- Deleting a key from the rounds table makes lookups at that key fail. -/
theorem getRound_deleteRound_self (table : List RoundItem) (rid : String) :
    Rounds.getRound (Rounds.deleteRound table rid) rid = none := by
  induction table with
  | nil => rfl
  | cons r rest ih =>
      by_cases h : r.roundId = rid
      · simp [Rounds.deleteRound, h, ih]
      · simp [Rounds.deleteRound, Rounds.getRound, h, ih]

/-- C6: deleting an existing round as a caller whose email claim differs
from the stored authorEmail answers 403 and leaves the table untouched;
deleting as the recorded author answers 200 and a subsequent get for that
roundId answers 404. -/
theorem C6_delete_round_authorization
    (table : List RoundItem) (path : String) (user_id user_email : Option String)
    (rid : String) (r : RoundItem)
    (hlen : 3 ≤ (pySplit path '/').length)
    (hseg : (pySplit path '/').getD 2 "" = rid)
    (hlast : (pySplit path '/').getLastD "" = rid)
    (hget : Rounds.getRound table rid = some r) :
    (user_email ≠ r.authorEmail →
      Rounds.handle_delete_round table path user_id user_email =
        (table, Rounds.create_response 403 (.err "You can only delete your own rounds"))) ∧
    (user_email = r.authorEmail →
      (Rounds.handle_delete_round table path user_id user_email).2.statusCode = 200 ∧
      (Rounds.handle_get_specific_round
          (Rounds.handle_delete_round table path user_id user_email).1
          path user_id user_email).statusCode = 404) := by
  have hnotlt : ¬((pySplit path '/').length < 3) := not_lt.mpr hlen
  constructor
  · intro hne
    simp only [Rounds.handle_delete_round, if_neg hnotlt, hseg, hget]
    rw [if_pos (fun h => hne h.symm)]
  · intro heq
    have hcond : ¬(r.authorEmail ≠ user_email) := by simp [heq]
    simp only [Rounds.handle_delete_round, if_neg hnotlt, hseg, hget, if_neg hcond]
    refine ⟨rfl, ?_⟩
    simp only [Rounds.handle_get_specific_round, hlast,
      getRound_deleteRound_self table rid]
    rfl

/-- Witness for C6: a non-author delete of round r1 answers 403 leaving the
round stored, and the author delete answers 200 after which the get
answers 404. -/
theorem C6_delete_round_authorization_witness :
    (Rounds.handle_delete_round
        [⟨"r1", none, none, none, none, none, none, none, some "a@x", some "ua", "t0"⟩]
        "/rounds/r1" (some "ub") (some "b@x") =
      ([⟨"r1", none, none, none, none, none, none, none, some "a@x", some "ua", "t0"⟩],
       Rounds.create_response 403 (.err "You can only delete your own rounds"))) ∧
    (Rounds.handle_delete_round
        [⟨"r1", none, none, none, none, none, none, none, some "a@x", some "ua", "t0"⟩]
        "/rounds/r1" (some "ua") (some "a@x")).2.statusCode = 200 ∧
    (Rounds.handle_get_specific_round
        (Rounds.handle_delete_round
          [⟨"r1", none, none, none, none, none, none, none, some "a@x", some "ua", "t0"⟩]
          "/rounds/r1" (some "ua") (some "a@x")).1
        "/rounds/r1" (some "ua") (some "a@x")).statusCode = 404 := by
  refine ⟨?_, ?_⟩
  · exact (C6_delete_round_authorization
        [⟨"r1", none, none, none, none, none, none, none, some "a@x", some "ua", "t0"⟩]
        "/rounds/r1" (some "ub") (some "b@x") "r1"
        ⟨"r1", none, none, none, none, none, none, none, some "a@x", some "ua", "t0"⟩
        (by decide) (by decide) (by decide) (by decide)).1 (by decide)
  · exact (C6_delete_round_authorization
        [⟨"r1", none, none, none, none, none, none, none, some "a@x", some "ua", "t0"⟩]
        "/rounds/r1" (some "ua") (some "a@x") "r1"
        ⟨"r1", none, none, none, none, none, none, none, some "a@x", some "ua", "t0"⟩
        (by decide) (by decide) (by decide) (by decide)).2 rfl

/-- C10: round-delete authorization compares the caller email claim to the
stored authorEmail, not the subject id to authorId: a caller with the
author email but a different subject id deletes successfully (200), while
a caller with the matching subject id but a different email receives 403
with the table untouched; index.py behaves the same way. -/
theorem C10_delete_round_compares_email_not_sub
    (table : List RoundItem) (path : String) (user_id user_email : Option String)
    (rid : String) (r : RoundItem)
    (hlen : 3 ≤ (pySplit path '/').length)
    (hseg : (pySplit path '/').getD 2 "" = rid)
    (hget : Rounds.getRound table rid = some r) :
    (user_email = r.authorEmail → user_id ≠ r.authorId →
      (Rounds.handle_delete_round table path user_id user_email).2.statusCode = 200 ∧
      (IndexFn.handle_delete_round table path user_id user_email).2.statusCode = 200) ∧
    (user_id = r.authorId → user_email ≠ r.authorEmail →
      Rounds.handle_delete_round table path user_id user_email =
        (table, Rounds.create_response 403 (.err "You can only delete your own rounds")) ∧
      IndexFn.handle_delete_round table path user_id user_email =
        (table, IndexFn.create_response 403 (.err "You can only delete your own rounds"))) := by
  have hnotlt : ¬((pySplit path '/').length < 3) := not_lt.mpr hlen
  constructor
  · intro heq _
    have hcond : ¬(r.authorEmail ≠ user_email) := by simp [heq]
    constructor
    · simp only [Rounds.handle_delete_round, if_neg hnotlt, hseg, hget, if_neg hcond]
      rfl
    · simp only [IndexFn.handle_delete_round, if_neg hnotlt, hseg, hget, if_neg hcond]
      rfl
  · intro _ hne
    constructor
    · simp only [Rounds.handle_delete_round, if_neg hnotlt, hseg, hget]
      rw [if_pos (fun h => hne h.symm)]
    · simp only [IndexFn.handle_delete_round, if_neg hnotlt, hseg, hget]
      rw [if_pos (fun h => hne h.symm)]

/-- Witness for C10: with a round authored by (ua, a@x), the caller
(ub, a@x) deletes it with 200, and the caller (ua, b@x) receives 403. -/
theorem C10_delete_round_compares_email_not_sub_witness :
    ((Rounds.handle_delete_round
        [⟨"r1", none, none, none, none, none, none, none, some "a@x", some "ua", "t0"⟩]
        "/rounds/r1" (some "ub") (some "a@x")).2.statusCode = 200 ∧
     (IndexFn.handle_delete_round
        [⟨"r1", none, none, none, none, none, none, none, some "a@x", some "ua", "t0"⟩]
        "/rounds/r1" (some "ub") (some "a@x")).2.statusCode = 200) ∧
    (Rounds.handle_delete_round
        [⟨"r1", none, none, none, none, none, none, none, some "a@x", some "ua", "t0"⟩]
        "/rounds/r1" (some "ua") (some "b@x") =
      ([⟨"r1", none, none, none, none, none, none, none, some "a@x", some "ua", "t0"⟩],
       Rounds.create_response 403 (.err "You can only delete your own rounds")) ∧
     IndexFn.handle_delete_round
        [⟨"r1", none, none, none, none, none, none, none, some "a@x", some "ua", "t0"⟩]
        "/rounds/r1" (some "ua") (some "b@x") =
      ([⟨"r1", none, none, none, none, none, none, none, some "a@x", some "ua", "t0"⟩],
       IndexFn.create_response 403 (.err "You can only delete your own rounds"))) := by
  constructor
  · exact (C10_delete_round_compares_email_not_sub
        [⟨"r1", none, none, none, none, none, none, none, some "a@x", some "ua", "t0"⟩]
        "/rounds/r1" (some "ub") (some "a@x") "r1"
        ⟨"r1", none, none, none, none, none, none, none, some "a@x", some "ua", "t0"⟩
        (by decide) (by decide) (by decide)).1 (by decide) (by decide)
  · exact (C10_delete_round_compares_email_not_sub
        [⟨"r1", none, none, none, none, none, none, none, some "a@x", some "ua", "t0"⟩]
        "/rounds/r1" (some "ua") (some "b@x") "r1"
        ⟨"r1", none, none, none, none, none, none, none, some "a@x", some "ua", "t0"⟩
        (by decide) (by decide) (by decide)).2 (by decide) (by decide)

/-- C8: the specialized round-view handlers (solved, baseline,
user-submitted) are function-for-function identical to the plain list-all
handler, and at the routing level the paths /rounds/solved, /rounds/baseline,
/rounds/user-submitted and /rounds/user-completed all produce exactly the
same result as /rounds: the unfiltered full scan with no filtering. -/
theorem C8_round_views_are_aliases
    (table : List RoundItem) (user_id user_email : Option String)
    (c : Claims) (nowMs : Nat) (nowIso : String) :
    Rounds.handle_get_solved_rounds table user_id user_email =
      Rounds.handle_get_rounds table user_id user_email ∧
    Rounds.handle_get_baseline_rounds table user_id user_email =
      Rounds.handle_get_rounds table user_id user_email ∧
    Rounds.handle_get_user_submitted_rounds table user_id user_email =
      Rounds.handle_get_rounds table user_id user_email ∧
    Rounds.lambda_handler table ⟨"GET", "/rounds/solved", none, c⟩ nowMs nowIso =
      Rounds.lambda_handler table ⟨"GET", "/rounds", none, c⟩ nowMs nowIso ∧
    Rounds.lambda_handler table ⟨"GET", "/rounds/baseline", none, c⟩ nowMs nowIso =
      Rounds.lambda_handler table ⟨"GET", "/rounds", none, c⟩ nowMs nowIso ∧
    Rounds.lambda_handler table ⟨"GET", "/rounds/user-submitted", none, c⟩ nowMs nowIso =
      Rounds.lambda_handler table ⟨"GET", "/rounds", none, c⟩ nowMs nowIso ∧
    Rounds.lambda_handler table ⟨"GET", "/rounds/user-completed", none, c⟩ nowMs nowIso =
      Rounds.lambda_handler table ⟨"GET", "/rounds", none, c⟩ nowMs nowIso := by
  refine ⟨rfl, rfl, rfl, ?_, ?_, ?_, ?_⟩ <;>
    simp [Rounds.lambda_handler, Rounds.handle_get_solved_rounds,
      Rounds.handle_get_baseline_rounds, Rounds.handle_get_user_submitted_rounds,
      Rounds.handle_get_rounds,
      show strContains "/rounds/solved" "/config/" = false from by decide,
      show strContains "/rounds/baseline" "/config/" = false from by decide,
      show strContains "/rounds/user-submitted" "/config/" = false from by decide,
      show strContains "/rounds/user-completed" "/config/" = false from by decide,
      show strContains "/rounds" "/config/" = false from by decide,
      show pyEndsWith "/rounds/solved" "/solved" = true from by decide,
      show pyEndsWith "/rounds/baseline" "/baseline" = true from by decide,
      show pyEndsWith "/rounds/baseline" "/solved" = false from by decide,
      show pyEndsWith "/rounds/user-submitted" "/solved" = false from by decide,
      show pyEndsWith "/rounds/user-submitted" "/baseline" = false from by decide,
      show pyEndsWith "/rounds/user-submitted" "/user-submitted" = true from by decide,
      show pyEndsWith "/rounds/user-completed" "/solved" = false from by decide,
      show pyEndsWith "/rounds/user-completed" "/baseline" = false from by decide,
      show pyEndsWith "/rounds/user-completed" "/user-submitted" = false from by decide,
      show pyEndsWith "/rounds/user-completed" "/user-completed" = true from by decide,
      show pyEndsWith "/rounds" "/solved" = false from by decide,
      show pyEndsWith "/rounds" "/baseline" = false from by decide,
      show pyEndsWith "/rounds" "/user-submitted" = false from by decide,
      show pyEndsWith "/rounds" "/user-completed" = false from by decide,
      show pyStartsWith "/rounds" "/rounds/" = false from by decide]

/-- C7: a profile update whose body carries a username answers 400 exactly
when the stripped username is shorter than 3 or longer than 20 characters
or fails the alphanumeric check after removing underscores and hyphens;
otherwise the update is accepted with status 200. -/
theorem C7_username_validation
    (table : List ProfileItem) (user_id : String) (user_email : Option String)
    (profile_data : UserProfiles.ProfileBody) (now : String) (u : String)
    (hu : profile_data.username = some u) :
    ((UserProfiles.update_user_profile table user_id user_email profile_data now).2.statusCode
        = 400 ↔
      ((pyStrip u).length < 3 ∨ 20 < (pyStrip u).length ∨
        pyIsAlnum (removeUnderscoreHyphen (pyStrip u)) = false)) ∧
    (¬((pyStrip u).length < 3 ∨ 20 < (pyStrip u).length ∨
        pyIsAlnum (removeUnderscoreHyphen (pyStrip u)) = false) →
      (UserProfiles.update_user_profile table user_id user_email profile_data now).2.statusCode
        = 200) := by
  simp only [UserProfiles.update_user_profile, hu]
  by_cases h1 : (pyStrip u).length < 3
  · simp [h1, UserProfiles.error_response]
  · by_cases h2 : 20 < (pyStrip u).length
    · simp [h1, h2, UserProfiles.error_response]
    · by_cases h3 : pyIsAlnum (removeUnderscoreHyphen (pyStrip u)) = false
      · simp [h1, h2, h3, UserProfiles.error_response]
      · simp [h1, h2, h3, UserProfiles.applyProfileUpdate, UserProfiles.success_response]

/-- Witness for C7: username "ab" is rejected with 400 and username "abc"
is accepted with 200. -/
theorem C7_username_validation_witness :
    (UserProfiles.update_user_profile [] "u" (some "e") ⟨some "ab", []⟩ "t").2.statusCode
      = 400 ∧
    (UserProfiles.update_user_profile [] "u" (some "e") ⟨some "abc", []⟩ "t").2.statusCode
      = 200 := by
  constructor
  · exact (C7_username_validation [] "u" (some "e") ⟨some "ab", []⟩ "t" "ab" rfl).1.mpr
      (by decide)
  · exact (C7_username_validation [] "u" (some "e") ⟨some "abc", []⟩ "t" "abc" rfl).2
      (by decide)

/-- Counterexample to C3 as stated: with an empty claims bag, the rounds
handler serves a GET /rounds request with 200 (it never checks the subject
id) and the configurations handler answers 400 via its KeyError path, so
not every handler answers 401. -/
theorem C3_counterexample_not_all_401 :
    (Rounds.lambda_handler [] ⟨"GET", "/rounds", none, ⟨none, none⟩⟩ 0 "t").2.statusCode
      ≠ 401 ∧
    (Rounds.lambda_handler [] ⟨"GET", "/rounds", none, ⟨none, none⟩⟩ 0 "t").2.statusCode
      = 200 ∧
    (BoardConfigurations.lambda_handler []
        ⟨"GET", "/configurations", none, none, ⟨none, none⟩⟩ "t").2.statusCode ≠ 401 ∧
    (BoardConfigurations.lambda_handler []
        ⟨"GET", "/configurations", none, none, ⟨none, none⟩⟩ "t").2.statusCode = 400 := by
  refine ⟨?_, ?_, ?_, ?_⟩ <;> decide

/-- C3 amended: on a missing subject id, the scores and profiles handlers
answer 401 for every non-OPTIONS request, but the configurations handler
answers 400 (its bare claims dictionary access raises KeyError), and the
rounds handler performs no identity check at all (a GET /rounds request
without a subject id is served with 200). -/
theorem C3_amended_missing_sub_behavior
    (stable : List ScoreItem) (ptable : List ProfileItem) (ctable : List ConfigItem)
    (sev : Scores.Event) (pev : UserProfiles.Event) (cev : BoardConfigurations.Event)
    (now : String)
    (hs : sev.claims.sub = none) (hsm : sev.httpMethod ≠ "OPTIONS")
    (hp : pev.claims.sub = none) (hpm : pev.httpMethod ≠ "OPTIONS")
    (hc : cev.claims.sub = none) :
    (Scores.lambda_handler stable sev now).2.statusCode = 401 ∧
    (UserProfiles.lambda_handler ptable pev now).2.statusCode = 401 ∧
    (BoardConfigurations.lambda_handler ctable cev now).2.statusCode = 400 ∧
    (∀ (rtable : List RoundItem) (e : Option String) (nowMs : Nat) (nowIso : String),
      (Rounds.lambda_handler rtable ⟨"GET", "/rounds", none, ⟨none, e⟩⟩
          nowMs nowIso).2.statusCode = 200) := by
  refine ⟨?_, ?_, ?_, ?_⟩
  · simp only [Scores.lambda_handler, if_neg hsm, hs]
    rfl
  · simp only [UserProfiles.lambda_handler, if_neg hpm, hp]
    rfl
  · simp only [BoardConfigurations.lambda_handler, hc]
    rfl
  · intro rtable e nowMs nowIso
    simp [Rounds.lambda_handler, Rounds.handle_get_rounds,
      show strContains "/rounds" "/config/" = false from by decide,
      show pyEndsWith "/rounds" "/solved" = false from by decide,
      show pyEndsWith "/rounds" "/baseline" = false from by decide,
      show pyEndsWith "/rounds" "/user-submitted" = false from by decide,
      show pyEndsWith "/rounds" "/user-completed" = false from by decide,
      show pyStartsWith "/rounds" "/rounds/" = false from by decide]
    rfl

/-- Witness for the amended C3 at concrete requests without a subject id. -/
theorem C3_amended_missing_sub_behavior_witness :
    (Scores.lambda_handler [] ⟨"GET", "/scores", none, ⟨none, none, none⟩, ⟨none, none⟩⟩
        "t").2.statusCode = 401 ∧
    (UserProfiles.lambda_handler [] ⟨"GET", "/user/profile", ⟨none, []⟩, ⟨none, none⟩⟩
        "t").2.statusCode = 401 ∧
    (BoardConfigurations.lambda_handler []
        ⟨"GET", "/configurations", none, none, ⟨none, none⟩⟩ "t").2.statusCode = 400 ∧
    (∀ (rtable : List RoundItem) (e : Option String) (nowMs : Nat) (nowIso : String),
      (Rounds.lambda_handler rtable ⟨"GET", "/rounds", none, ⟨none, e⟩⟩
          nowMs nowIso).2.statusCode = 200) :=
  C3_amended_missing_sub_behavior [] [] []
    ⟨"GET", "/scores", none, ⟨none, none, none⟩, ⟨none, none⟩⟩
    ⟨"GET", "/user/profile", ⟨none, []⟩, ⟨none, none⟩⟩
    ⟨"GET", "/configurations", none, none, ⟨none, none⟩⟩ "t"
    rfl (by decide) rfl (by decide) rfl

/-- Counterexample to C5 as stated: the rounds handler has no OPTIONS
branch, so an OPTIONS request to it falls through to the 405 arm instead
of a 200 preflight response. -/
theorem C5_counterexample_rounds_options_405 :
    (Rounds.lambda_handler [] ⟨"OPTIONS", "/rounds", none, ⟨some "u", some "e"⟩⟩
        0 "t").2.statusCode = 405 ∧
    (Rounds.lambda_handler [] ⟨"OPTIONS", "/rounds", none, ⟨some "u", some "e"⟩⟩
        0 "t").2.statusCode ≠ 200 := by
  refine ⟨?_, ?_⟩ <;> decide

/-- C5 amended: an OPTIONS request receives the 200 CORS preflight response
with an empty body from the scores and profiles handlers unconditionally
and from the configurations handler whenever the claims bag carries a
subject id, while the rounds handler answers OPTIONS with 405. -/
theorem C5_amended_options_behavior
    (stable : List ScoreItem) (ptable : List ProfileItem) (ctable : List ConfigItem)
    (rtable : List RoundItem)
    (sev : Scores.Event) (pev : UserProfiles.Event) (cev : BoardConfigurations.Event)
    (rev : Rounds.Event) (now : String) (uid : String) (nowMs : Nat) (nowIso : String)
    (hs : sev.httpMethod = "OPTIONS") (hp : pev.httpMethod = "OPTIONS")
    (hc : cev.httpMethod = "OPTIONS") (hcu : cev.claims.sub = some uid)
    (hr : rev.httpMethod = "OPTIONS") :
    Scores.lambda_handler stable sev now = (stable, Scores.cors_response) ∧
    UserProfiles.lambda_handler ptable pev now = (ptable, UserProfiles.cors_response) ∧
    BoardConfigurations.lambda_handler ctable cev now =
      (ctable, BoardConfigurations.cors_response) ∧
    (Rounds.lambda_handler rtable rev nowMs nowIso).2.statusCode = 405 ∧
    Scores.cors_response.statusCode = 200 ∧ Scores.cors_response.body = .empty ∧
    UserProfiles.cors_response.statusCode = 200 ∧
    UserProfiles.cors_response.body = .empty ∧
    BoardConfigurations.cors_response.statusCode = 200 ∧
    BoardConfigurations.cors_response.body = .empty := by
  refine ⟨?_, ?_, ?_, ?_, rfl, rfl, rfl, rfl, rfl, rfl⟩
  · simp [Scores.lambda_handler, hs]
  · simp [UserProfiles.lambda_handler, hp]
  · simp [BoardConfigurations.lambda_handler, hcu, hc]
  · simp only [Rounds.lambda_handler, hr]
    rw [if_neg (by decide : ¬("OPTIONS" : String) = "GET"),
      if_neg (by decide : ¬("OPTIONS" : String) = "POST"),
      if_neg (by decide : ¬("OPTIONS" : String) = "DELETE")]
    rfl

/-- Witness for the amended C5 at concrete OPTIONS requests. -/
theorem C5_amended_options_behavior_witness :
    Scores.lambda_handler [] ⟨"OPTIONS", "/scores", none, ⟨none, none, none⟩, ⟨none, none⟩⟩
        "t" = ([], Scores.cors_response) ∧
    UserProfiles.lambda_handler [] ⟨"OPTIONS", "/user/profile", ⟨none, []⟩, ⟨none, none⟩⟩
        "t" = ([], UserProfiles.cors_response) ∧
    BoardConfigurations.lambda_handler []
        ⟨"OPTIONS", "/configurations", none, none, ⟨some "u", none⟩⟩ "t" =
      ([], BoardConfigurations.cors_response) ∧
    (Rounds.lambda_handler [] ⟨"OPTIONS", "/rounds", none, ⟨some "u", some "e"⟩⟩
        0 "t").2.statusCode = 405 := by
  have h := C5_amended_options_behavior [] [] [] []
    ⟨"OPTIONS", "/scores", none, ⟨none, none, none⟩, ⟨none, none⟩⟩
    ⟨"OPTIONS", "/user/profile", ⟨none, []⟩, ⟨none, none⟩⟩
    ⟨"OPTIONS", "/configurations", none, none, ⟨some "u", none⟩⟩
    ⟨"OPTIONS", "/rounds", none, ⟨some "u", some "e"⟩⟩ "t" "u" 0 "t"
    rfl rfl rfl rfl rfl
  exact ⟨h.1, h.2.1, h.2.2.1, h.2.2.2.1⟩
